import Mathlib

/-!
Shallow embedding of the mopa-rl training stack: the Trainer orchestration
loop of src/rl/trainer.py (checkpoint save and restore, distributed step
accounting, the rollout-collection and optimization loop, the replay prefill
phase and the chef-only evaluation and checkpoint gating), the Sawyer
pick-and-place environment of src/env/sawyer/sawyer_pick_place.py (reward,
observation dictionary and the low-level step), and the argument defaults of
src/config/sawyer.py.

Python exceptions are modelled with Except or Option, machine state that the
Python code mutates is passed explicitly, and numeric simulator quantities are
rationals.  External frameworks (the MuJoCo bindings, torch, numpy linalg,
wandb) enter as parameters of the embedded functions; repository code that is
outside the excerpt (util.mpi.mpi_sum, util.pytorch.get_ckpt_path, the
rollout runners, the quaternion conversion helper) is modelled from the
specification and marked as such on the definition.
-/

/-- Python exception kinds raised by the embedded code paths. -/
inductive PyError
  | assertionError
  | unboundLocalError
  | nameError
  | typeError
  | notImplementedError
deriving DecidableEq

/-- The configuration fields of the argparse namespace that the embedded
Trainer code paths read. -/
structure Config where
  algo : String
  is_chef : Bool
  is_train : Bool
  is_mpi : Bool
  max_global_step : Nat
  start_steps : Nat
  evaluate_interval : Nat
  ckpt_interval : Nat
  log_interval : Nat
deriving DecidableEq

/-- The pieces of agent state that Trainer._save_ckpt and Trainer._load_ckpt
move in and out of checkpoint files: the network state dict returned by
agent.state_dict and the replay buffer returned by agent.replay_buffer,
both abstract payloads here. -/
structure AgentState where
  state_dict : Nat
  replay_buffer : Nat
deriving DecidableEq

/-- Content of a checkpoint file ckpt_TTTTTTTT.pt written by torch.save in
Trainer._save_ckpt: the dict with keys step, update_iter, env_step and the
agent state dict. env_step is an Option because the Python variable can be
None. -/
structure CkptData where
  step : Nat
  update_iter : Nat
  env_step : Option Nat
  agent : Nat
deriving DecidableEq

/-- The log directory as a key-value store: checkpoint files and replay
files, both keyed by the checkpoint number embedded in the file name.
Writing a file prepends, so a later write under the same number shadows an
earlier one, as it would on a file system. -/
structure LogDir where
  ckpts : List (Nat × CkptData)
  replays : List (Nat × Nat)
deriving DecidableEq

/-- Trainer._save_ckpt (src/rl/trainer.py lines 260-274): writes the state
dict with step set to the checkpoint number, update_iter, env_step and the
agent state dict into the checkpoint file, and the replay buffer (a dict
with single key replay, modelled by its payload) into the gzip replay file
under the same number. -/
def save_ckpt (dir : LogDir) (ag : AgentState) (ckpt_num update_iter : Nat)
    (env_step : Option Nat) : LogDir :=
  { ckpts := (ckpt_num,
      { step := ckpt_num, update_iter := update_iter, env_step := env_step,
        agent := ag.state_dict }) :: dir.ckpts,
    replays := (ckpt_num, ag.replay_buffer) :: dir.replays }

/-- Modelled from the spec: util.pytorch.get_ckpt_path is not in the
excerpt.  Per the checkpoint save/restore description of the spec it
resolves a requested checkpoint number to the checkpoint file saved under
that number in the log directory, the most recently saved checkpoint when
no number is given, and nothing when the directory holds no checkpoint. -/
def get_ckpt_path (dir : LogDir) : Option Nat → Option (CkptData × Nat)
  | some n => (dir.ckpts.lookup n).map (fun c => (c, n))
  | none => dir.ckpts.head?.map (fun p => (p.2, p.1))

/-- Trainer._load_ckpt (src/rl/trainer.py lines 276-296): when a checkpoint
file is found, load the agent state dict from it, additionally load the
replay buffer file of the same number when config.is_train holds (missing
replay file: the gzip open raises, modelled as none), and return the stored
step, update_iter and env_step; when no checkpoint is found, leave the agent
untouched and return 0, 0, 0. -/
def load_ckpt (cfg : Config) (dir : LogDir) (ag : AgentState)
    (ckpt_num : Option Nat) : Option (AgentState × Nat × Nat × Option Nat) :=
  match get_ckpt_path dir ckpt_num with
  | some (ckpt, num) =>
    if cfg.is_train then
      match dir.replays.lookup num with
      | some rb =>
        some ({ state_dict := ckpt.agent, replay_buffer := rb },
          ckpt.step, ckpt.update_iter, ckpt.env_step)
      | none => none
    else
      some ({ ag with state_dict := ckpt.agent },
        ckpt.step, ckpt.update_iter, ckpt.env_step)
  | none => some (ag, 0, 0, some 0)

/-- Modelled from the spec: util.mpi.mpi_sum is not in the excerpt.  The
spec describes it as a message-passing-style reduction that sums a
per-worker value across all parallel workers, so it adds the local value
and the values contributed by the other workers. -/
def mpi_sum (localValue : Nat) (otherWorkers : List Nat) : Nat :=
  localValue + otherWorkers.sum

/-- One batch delivered by next(runner) in Trainer.train: the length of the
local rollout action list rollout of key ac, the action-list lengths of the
other workers (relevant only under mpi), and info of key env_step when the
runner reports it.  Modelled from the spec: the rollout runners are not in
the excerpt, so their outputs are inputs of the embedded loop. -/
structure RolloutBatch where
  ac_len : Nat
  other_ac_lens : List Nat
  env_step_info : Option Nat
deriving DecidableEq

/-- The per-iteration step increment of Trainer.train (src/rl/trainer.py
lines 387-390): mpi_sum of the action-list length across workers when
config.is_mpi holds, the local length otherwise. -/
def step_per_batch (cfg : Config) (b : RolloutBatch) : Nat :=
  if cfg.is_mpi then mpi_sum b.ac_len b.other_ac_lens else b.ac_len

/-- The mutable counters of Trainer.train: the global step, the update
iteration counter past to the optimizer, and the environment step counter
which the Python code sets to None when a batch does not report one. -/
structure LoopState where
  step : Nat
  update_iter : Nat
  env_step : Option Nat
deriving DecidableEq

/-- Observable actions of one Trainer.train iteration: store_episode and
agent.train always run; the chef worker evaluates when the incremented
update_iter is a multiple of config.evaluate_interval and saves a checkpoint
(recording the arguments handed to _save_ckpt) when it is a multiple of
config.ckpt_interval. -/
structure IterEffects where
  stored_episode : Bool
  trained : Bool
  evaluated : Bool
  saved_ckpt : Option (Nat × Nat × Option Nat)
deriving DecidableEq

/-- The chef-only block at the end of a Trainer.train iteration
(src/rl/trainer.py lines 411-447), applied to the already incremented
counters. -/
def chef_effects (cfg : Config) (s : LoopState) : IterEffects :=
  { stored_episode := true
    trained := true
    evaluated := cfg.is_chef && (s.update_iter % cfg.evaluate_interval == 0)
    saved_ckpt :=
      if cfg.is_chef && (s.update_iter % cfg.ckpt_interval == 0) then
        some (s.step, s.update_iter, s.env_step)
      else none }

/-- One iteration of the while loop of Trainer.train (src/rl/trainer.py
lines 381-447) acting on the counters: store the episode, train the agent,
advance step by step_per_batch, advance env_step by info env_step when
present (adding to a Python None raises TypeError, modelled as none) and
reset it to None otherwise, advance update_iter by one, then run the
chef-only block. -/
def train_iter (cfg : Config) (s : LoopState) (b : RolloutBatch) :
    Option (LoopState × IterEffects) :=
  let step1 := s.step + step_per_batch cfg b
  match b.env_step_info with
  | some d =>
    match s.env_step with
    | some e0 =>
      let s1 : LoopState :=
        { step := step1, update_iter := s.update_iter + 1,
          env_step := some (e0 + d) }
      some (s1, chef_effects cfg s1)
    | none => none
  | none =>
    let s1 : LoopState :=
      { step := step1, update_iter := s.update_iter + 1, env_step := none }
    some (s1, chef_effects cfg s1)

/-- Events emitted by Trainer.train, in program order: a call to
agent.store_episode and a call to agent.train. -/
inductive TrainEvent
  | storeEpisode
  | agentTrain
deriving DecidableEq

/-- The while loop of Trainer.train (src/rl/trainer.py lines 381-449):
while step is below config.max_global_step, pull the next batch from the
runner stream, run one iteration (store_episode then agent.train, then the
counter updates and chef block), and continue; stop as soon as step reaches
or exceeds config.max_global_step.  The fuel argument bounds the number of
iterations so that the function is total; none models a raised exception or
exhausted fuel. -/
def train_loop (cfg : Config) (batches : Nat → RolloutBatch) :
    Nat → Nat → LoopState → Option (LoopState × List TrainEvent)
  | fuel, i, s =>
    if s.step < cfg.max_global_step then
      match fuel with
      | 0 => none
      | Nat.succ f =>
        match train_iter cfg s (batches i) with
        | none => none
        | some (s1, _) =>
          match train_loop cfg batches f (i + 1) s1 with
          | none => none
          | some (sf, tr) =>
            some (sf, TrainEvent.storeEpisode :: TrainEvent.agentTrain :: tr)
    else some (s, [])

/-- The replay prefill loop of Trainer.train (src/rl/trainer.py lines
366-379): while init_step is below config.start_steps, pull a batch from
the random-exploration runner, add its step_per_batch to init_step and
store the episode.  Returns the final init_step and the number of stored
episodes. -/
def prefill_loop (cfg : Config) (batches : Nat → RolloutBatch) :
    Nat → Nat → Nat → Option (Nat × Nat)
  | fuel, i, init_step =>
    if init_step < cfg.start_steps then
      match fuel with
      | 0 => none
      | Nat.succ f =>
        match prefill_loop cfg batches f (i + 1)
            (init_step + step_per_batch cfg (batches i)) with
        | none => none
        | some (fin, k) => some (fin, k + 1)
    else some (init_step, 0)

/-- The agent classes returned by get_agent_by_name (src/rl/trainer.py
lines 93-103). -/
inductive AgentClassName
  | SACAgent
  | TD3Agent
deriving DecidableEq

/-- get_agent_by_name (src/rl/trainer.py lines 93-103): SACAgent for sac,
TD3Agent for td3, NotImplementedError otherwise. -/
def get_agent_by_name (algo : String) : Except PyError AgentClassName :=
  if algo = "sac" then Except.ok AgentClassName.SACAgent
  else if algo = "td3" then Except.ok AgentClassName.TD3Agent
  else Except.error PyError.notImplementedError

/-- Arguments with which Trainer.train instantiates a rollout generator by
calling the run method of the rollout runner. -/
structure GeneratorSpec where
  every_steps : Nat
  random_exploration : Bool
deriving DecidableEq

/-- The generator setup block of Trainer.train (src/rl/trainer.py lines
353-360): for algo sac it creates the main generator (every_steps 1) and
the random-exploration generator; for any other algo, td3 included, it
raises NotImplementedError. -/
def train_setup (cfg : Config) : Except PyError (GeneratorSpec × GeneratorSpec) :=
  if cfg.algo = "sac" then
    Except.ok ({ every_steps := 1, random_exploration := false },
      { every_steps := 1, random_exploration := true })
  else Except.error PyError.notImplementedError

/-- Trainer.train (src/rl/trainer.py lines 336-449) on the counters and
agent-facing events: load the latest checkpoint, set up the rollout
generators (NotImplementedError for algo other than sac), run the replay
prefill loop when the loaded step is 0, then run the main while loop.
Returns the emitted event trace (prefill stores first, then the loop
events) and the final counters; none models a raised exception or
exhausted fuel. -/
def train_fn (cfg : Config) (dir : LogDir) (ag : AgentState)
    (randomBatches batches : Nat → RolloutBatch) (preFuel loopFuel : Nat) :
    Option (List TrainEvent × LoopState) :=
  match load_ckpt cfg dir ag none with
  | none => none
  | some (_, step0, u0, e0) =>
    match train_setup cfg with
    | Except.error _ => none
    | Except.ok _ =>
      match (if step0 = 0 then prefill_loop cfg randomBatches preFuel 0 0
             else some (0, 0)) with
      | none => none
      | some (_, k) =>
        match train_loop cfg batches loopFuel 0
            { step := step0, update_iter := u0, env_step := e0 } with
        | none => none
        | some (sf, tr) =>
          some (List.replicate k TrainEvent.storeEpisode ++ tr, sf)

/-- A 3-vector of simulator coordinates. -/
abbrev Vec3 : Type := ℚ × ℚ × ℚ

/-- A quaternion as MuJoCo stores it in body_xquat: (w, x, y, z). -/
abbrev Quat : Type := ℚ × ℚ × ℚ × ℚ

/-- Componentwise difference of two 3-vectors, the numpy subtraction the
environment code applies to positions. -/
def vsub (a b : Vec3) : Vec3 := (a.1 - b.1, a.2.1 - b.2.1, a.2.2 - b.2.2)

/-- The simulator state fields read or driven by the embedded environment
code: body positions and quaternions by body id, site positions by site id
and by site name, and the joint positions at the arm reference indices
(sim.data.qpos at ref_joint_pos_indexes). -/
structure SimData where
  body_xpos : Nat → Vec3
  body_xquat : Nat → Quat
  site_xpos : Nat → Vec3
  site_xpos_by_name : String → Vec3
  qpos_ref : List ℚ

/-- The SawyerPickPlaceEnv attributes read by compute_reward, _get_obs and
_step.  dof_pos is the robot-model invariant that the Sawyer arm has a
positive number of degrees of freedom; modelled from the spec, the robot
model itself (env/sawyer/sawyer.py) being outside the excerpt. -/
structure PickPlaceEnv where
  sim : SimData
  cube_body_id : Nat
  eef_site_id : Nat
  reward_type : String
  dof : Nat
  dof_pos : 0 < dof
  robot_dof : Nat
  ac_scale : ℚ
  prev_state : Option (List ℚ)
  i_term : Option ℚ
  frame_dt : ℚ
  dt : ℚ
  terminal : Bool

/-- SawyerPickPlaceEnv.compute_reward (src/env/sawyer/sawyer_pick_place.py
lines 44-69).  npNorm stands for the external np.linalg.norm.  In the
dense branch the reward is the negated gripper-to-cube distance scaled by
0.6 and info carries it under key reward_reach.  Any other reward_type
takes the else branch, whose first line reads cube_pos and
gripper_site_pos, names that the function only assigns inside the dense
branch: Python raises UnboundLocalError there. -/
def compute_reward (npNorm : Vec3 → ℚ) (env : PickPlaceEnv)
    (_action : List ℚ) : Except PyError (ℚ × List (String × ℚ)) :=
  if env.reward_type = "dense" then
    let reach_multi : ℚ := 6 / 10
    let gripper_site_pos := env.sim.site_xpos_by_name "grip_site"
    let cube_pos := env.sim.body_xpos env.cube_body_id
    let gripper_to_cube := npNorm (vsub cube_pos gripper_site_pos)
    let reward_reach := (-gripper_to_cube) * reach_multi
    Except.ok (0 + reward_reach, [("reward_reach", reward_reach)])
  else Except.error PyError.unboundLocalError

/-- Values held by the observation dictionary: 3-vectors, quaternions, and
uninterpreted entries contributed by the base-class observation. -/
inductive ObsVal
  | v3 (v : Vec3)
  | q4 (q : Quat)
  | raw (n : Nat)
deriving DecidableEq

/-- Python dict assignment di of key k set to v, with lookup-first-match
semantics: the new binding shadows any earlier one. -/
def dictSet (d : List (String × ObsVal)) (k : String) (v : ObsVal) :
    List (String × ObsVal) := (k, v) :: d

/-- Modelled from the spec: env.robosuite.utils.transform_utils.convert_quat
is not in the excerpt.  The spec says the cube quaternion is converted to
xyzw ordering, so a MuJoCo (w, x, y, z) quaternion is reordered to
(x, y, z, w). -/
def convert_quat_to_xyzw (q : Quat) : Quat := (q.2.1, q.2.2.1, q.2.2.2, q.1)

/-- SawyerPickPlaceEnv._get_obs (src/env/sawyer/sawyer_pick_place.py lines
71-82): extend the base-class observation dictionary (baseObs stands for
the super()._get_obs() call, outside the excerpt) with cube_pos, cube_quat
converted to xyzw, and gripper_to_cube as end-effector site position minus
cube position. -/
def get_obs (baseObs : SimData → List (String × ObsVal))
    (env : PickPlaceEnv) : List (String × ObsVal) :=
  let di := baseObs env.sim
  let cube_pos := env.sim.body_xpos env.cube_body_id
  let cube_quat := convert_quat_to_xyzw (env.sim.body_xquat env.cube_body_id)
  let di1 := dictSet di "cube_pos" (ObsVal.v3 cube_pos)
  let di2 := dictSet di1 "cube_quat" (ObsVal.q4 cube_quat)
  let gripper_site_pos := env.sim.site_xpos env.eef_site_id
  dictSet di2 "gripper_to_cube" (ObsVal.v3 (vsub gripper_site_pos cube_pos))

/-- numpy clip of a scalar to the interval from lo to hi. -/
def np_clip (x lo hi : ℚ) : ℚ := min (max x lo) hi

/-- Python int() applied to a rational: truncation toward zero. -/
def py_int (q : ℚ) : Int := if q < 0 then -((-q).floor) else q.floor

/-- Run the inner simulation body n times in sequence, as the for loop over
range(n_inner_loop) does. -/
def iterate_sim (f : SimData → SimData) : Nat → SimData → SimData
  | 0, sd => sd
  | Nat.succ n, sd => iterate_sim f n (f sd)

/-- The baseline joint state of _step (lines 119-120): the qpos snapshot at
the arm reference indices, unless a planner call arrives with a stored
previous state, in which case that state is kept. -/
def step_prev0 (env : PickPlaceEnv) (is_planner : Bool) : List ℚ :=
  if is_planner = false ∨ env.prev_state = none then env.sim.qpos_ref
  else env.prev_state.getD []

/-- The rescaled arm action of _step (lines 125-128): the first robot_dof
action entries, clipped to the ac_scale interval on planner calls and
multiplied by ac_scale otherwise. -/
def step_rescaled_ac (env : PickPlaceEnv) (action : List ℚ)
    (is_planner : Bool) : List ℚ :=
  if is_planner then
    (action.take env.robot_dof).map
      (fun a => np_clip a (-env.ac_scale) env.ac_scale)
  else (action.take env.robot_dof).map (fun a => a * env.ac_scale)

/-- The desired state of _step (line 129): previous state plus rescaled arm
action, componentwise. -/
def step_desired_state (env : PickPlaceEnv) (action : List ℚ)
    (is_planner : Bool) : List ℚ :=
  List.zipWith (fun a b => a + b) (step_prev0 env is_planner)
    (step_rescaled_ac env action is_planner)

/-- The converted action of _step (lines 130-132): the arm action (the
desired state) concatenated with the formatted gripper action computed from
the last action entry. -/
def step_converted_action (gfa : ℚ → List ℚ) (env : PickPlaceEnv)
    (action : List ℚ) (is_planner : Bool) : List ℚ :=
  step_desired_state env action is_planner ++ gfa (action.getLast?.getD 0)

/-- The environment after the body of _step (lines 122-153): the simulator
advanced by int(frame_dt/dt) inner-loop passes on the converted action,
_prev_state set to the desired state, and _i_term initialised to zero when
it was unset. -/
def step_post_env (doSim : SimData → List ℚ → SimData) (gfa : ℚ → List ℚ)
    (env : PickPlaceEnv) (action : List ℚ) (is_planner : Bool) :
    PickPlaceEnv :=
  { env with
    sim := iterate_sim
      (fun sd => doSim sd (step_converted_action gfa env action is_planner))
      ((py_int (env.frame_dt / env.dt)).toNat) env.sim
    prev_state := some (step_desired_state env action is_planner)
    i_term := some (match env.i_term with
      | none => 0
      | some t => t) }

/-- SawyerPickPlaceEnv._step (src/env/sawyer/sawyer_pick_place.py lines
113-156).  doSim stands for one pass of the inner loop body (the
qfrc_applied writes and the external _do_simulation call, which only touch
simulator state); gfa stands for the base-class _gripper_format_action
applied to the last action entry; baseObs stands for the base-class part of
_get_obs.  The assert demands that the action length equals dof; when it
holds, the simulator and bookkeeping updates of step_post_env run, the
reward is computed on the resulting state, and the step returns the
observation, the reward, the terminal flag and the reward info. -/
def sawyer_step (npNorm : Vec3 → ℚ) (doSim : SimData → List ℚ → SimData)
    (gfa : ℚ → List ℚ) (baseObs : SimData → List (String × ObsVal))
    (env : PickPlaceEnv) (action : List ℚ) (is_planner : Bool) :
    Except PyError
      (List (String × ObsVal) × ℚ × Bool × List (String × ℚ) × PickPlaceEnv) :=
  if action.length = env.dof then
    let env1 := step_post_env doSim gfa env action is_planner
    match compute_reward npNorm env1 action with
    | Except.error e => Except.error e
    | Except.ok (reward, info) =>
      Except.ok (get_obs baseObs env1, reward, env1.terminal, info, env1)
  else Except.error PyError.assertionError

/-- Default value of an argparse argument of src/config/sawyer.py. -/
inductive ArgDefault
  | str (s : String)
  | num (q : ℚ)
  | flag (b : Bool)
deriving DecidableEq

/-- add_arguments (src/config/sawyer.py lines 4-46): the argument names and
default values registered on the parser, in registration order; parsing an
empty argument list returns exactly these defaults. -/
def add_arguments : List (String × ArgDefault) :=
  [("reward_type", ArgDefault.str "dense"),
   ("distance_threshold", ArgDefault.num (6 / 100)),
   ("max_episode_steps", ArgDefault.num 250),
   ("screen_width", ArgDefault.num 500),
   ("screen_height", ArgDefault.num 500),
   ("camera_depth", ArgDefault.flag false),
   ("camera_name", ArgDefault.str "topview"),
   ("frame_skip", ArgDefault.num 1),
   ("action_repeat", ArgDefault.num 5),
   ("ctrl_reward_coef", ArgDefault.num 0),
   ("kp", ArgDefault.num 40),
   ("kd", ArgDefault.num 8),
   ("ki", ArgDefault.num 0),
   ("frame_dt", ArgDefault.num (15 / 100)),
   ("use_robot_indicator", ArgDefault.flag true),
   ("use_target_robot_indicator", ArgDefault.flag true),
   ("task_level", ArgDefault.str "easy"),
   ("success_reward", ArgDefault.num 150),
   ("range", ArgDefault.num (1 / 10)),
   ("simple_planner_range", ArgDefault.num (5 / 100)),
   ("timelimit", ArgDefault.num 1),
   ("simple_planner_timelimit", ArgDefault.num (5 / 100)),
   ("contact_threshold", ArgDefault.num (-2 / 1000)),
   ("joint_margin", ArgDefault.num (1 / 1000)),
   ("step_size", ArgDefault.num (2 / 100))]

/-- The global names defined by the module src/config/sawyer.py when
get_default_config runs: the import of str2bool and the two function
definitions.  Python resolves the callee name of a call against these at
run time. -/
def config_sawyer_globals : List String :=
  ["str2bool", "add_arguments", "get_default_config"]

/-- get_default_config (src/config/sawyer.py lines 49-62): builds a parser,
calls the global name add_argument on it, registers seed 1234 and debug
False, and parses an empty argument list.  The module defines
add_arguments, not add_argument, so the call raises NameError before any
argument is registered. -/
def get_default_config : Except PyError (List (String × ArgDefault)) :=
  if "add_argument" ∈ config_sawyer_globals then
    Except.ok (add_arguments ++
      [("seed", ArgDefault.num 1234), ("debug", ArgDefault.flag false)])
  else Except.error PyError.nameError

/-- Sample simulator state used to evaluate the environment code on
concrete inputs. -/
def sampleSim : SimData :=
  { body_xpos := fun _ => (1, 2, 3)
    body_xquat := fun _ => (1, 0, 0, 0)
    site_xpos := fun _ => (4, 5, 6)
    site_xpos_by_name := fun _ => (0, 0, 0)
    qpos_ref := [0, 0, 0] }

/-- Concrete pick-and-place environment with the default dense reward. -/
def denseEnv : PickPlaceEnv :=
  { sim := sampleSim
    cube_body_id := 0
    eef_site_id := 0
    reward_type := "dense"
    dof := 4
    dof_pos := Nat.succ_pos 3
    robot_dof := 3
    ac_scale := 1
    prev_state := none
    i_term := none
    frame_dt := 15 / 100
    dt := 3 / 100
    terminal := false }

/-- The same environment configured with the sparse reward, the other value
the configuration layer accepts for reward_type. -/
def sparseEnv : PickPlaceEnv := { denseEnv with reward_type := "sparse" }

/-- Concrete stand-in for the external np.linalg.norm, used only to
evaluate the embedded reward on concrete inputs. -/
def absNorm : Vec3 → ℚ := fun v => |v.1| + |v.2.1| + |v.2.2|

/-- C1: after Trainer._save_ckpt(n, u, e), a subsequent Trainer._load_ckpt(n)
returns exactly the triple (n, u, e), restores the agent state dict saved
under n, and, when config.is_train holds, also restores the replay buffer
from the replay file saved alongside under the same number n (otherwise the
replay buffer of the loading agent is left untouched). -/
theorem ckpt_save_load_round_trip (cfg : Config) (dir : LogDir)
    (ag ag2 : AgentState) (n u : Nat) (e : Option Nat) :
    load_ckpt cfg (save_ckpt dir ag n u e) ag2 (some n) =
      some ({ state_dict := ag.state_dict
              replay_buffer := if cfg.is_train then ag.replay_buffer
                else ag2.replay_buffer }, n, u, e) := by
  cases hc : cfg.is_train <;>
    simp [load_ckpt, save_ckpt, get_ckpt_path, List.lookup, hc]

/-- C4: on the failing input reward_type sparse, compute_reward raises
UnboundLocalError (its else branch reads cube_pos and gripper_site_pos,
which only the dense branch assigns), while on the dense reward it returns
the pair of the scaled negated gripper-to-cube distance and an info dict
carrying that value under key reward_reach, as the claim describes. -/
theorem compute_reward_dense_ok_sparse_raises :
    compute_reward absNorm denseEnv [] =
      Except.ok (-(18 / 5 : ℚ), [("reward_reach", -(18 / 5 : ℚ))])
    ∧ (compute_reward absNorm sparseEnv [] =
        Except.error PyError.unboundLocalError) := by
  constructor
  · simp [compute_reward, denseEnv, sparseEnv, sampleSim, absNorm, vsub]
    norm_num
  · simp [compute_reward, denseEnv, sparseEnv, sampleSim]

/-- C5: get_default_config never returns the default configuration: its
body calls the undefined global name add_argument (the module defines
add_arguments), so Python raises NameError on every call.  The defaults the
claim lists are indeed declared by add_arguments (reward_type dense,
max_episode_steps 250, frame_dt 0.15), but get_default_config raises before
registering any of them. -/
theorem get_default_config_raises_name_error :
    get_default_config = Except.error PyError.nameError
    ∧ add_arguments.lookup "reward_type" = some (ArgDefault.str "dense")
    ∧ add_arguments.lookup "max_episode_steps" = some (ArgDefault.num 250)
    ∧ add_arguments.lookup "frame_dt" = some (ArgDefault.num (15 / 100)) := by
  refine ⟨?_, ?_, ?_, ?_⟩ <;>
    simp [get_default_config, config_sawyer_globals, add_arguments, List.lookup]

/-- C8: every observation dictionary returned by _get_obs contains cube_pos
equal to the cube body position, cube_quat equal to the cube body
quaternion reordered from MuJoCo (w, x, y, z) to (x, y, z, w), and
gripper_to_cube equal to the end-effector site position minus the cube
position, whatever the base-class observation contributes. -/
theorem get_obs_cube_entries (baseObs : SimData → List (String × ObsVal))
    (env : PickPlaceEnv) :
    (get_obs baseObs env).lookup "cube_pos" =
      some (ObsVal.v3 (env.sim.body_xpos env.cube_body_id))
    ∧ (get_obs baseObs env).lookup "cube_quat" =
      some (ObsVal.q4 ((env.sim.body_xquat env.cube_body_id).2.1,
        (env.sim.body_xquat env.cube_body_id).2.2.1,
        (env.sim.body_xquat env.cube_body_id).2.2.2,
        (env.sim.body_xquat env.cube_body_id).1))
    ∧ (get_obs baseObs env).lookup "gripper_to_cube" =
      some (ObsVal.v3 (vsub (env.sim.site_xpos env.eef_site_id)
        (env.sim.body_xpos env.cube_body_id))) := by
  refine ⟨?_, ?_, ?_⟩ <;>
    simp [get_obs, dictSet, convert_quat_to_xyzw, List.lookup]

/-- C2: in every iteration of the Trainer.train loop that completes, the
global step advances by mpi_sum across workers of the rollout action-list
length when config.is_mpi holds and by the local action-list length
otherwise, and update_iter advances by exactly one. -/
theorem train_iter_step_accounting (cfg : Config) (s : LoopState)
    (b : RolloutBatch) (s1 : LoopState) (fx : IterEffects)
    (h : train_iter cfg s b = some (s1, fx)) :
    s1.step = s.step +
      (if cfg.is_mpi then mpi_sum b.ac_len b.other_ac_lens else b.ac_len)
    ∧ s1.update_iter = s.update_iter + 1 := by
  cases hb : b.env_step_info with
  | none =>
    simp [train_iter, hb] at h
    rcases h with ⟨h1, _⟩
    subst h1
    simp [step_per_batch]
  | some d =>
    cases hs : s.env_step with
    | none => simp [train_iter, hb, hs] at h
    | some e0 =>
      simp [train_iter, hb, hs] at h
      rcases h with ⟨h1, _⟩
      subst h1
      simp [step_per_batch]

/-- C2 witness: a concrete mpi iteration in which the local worker collects
2 action steps and the other worker 3, so the global step advances by 5 and
update_iter by one. -/
theorem train_iter_step_accounting_witness :
    ({ step := 5, update_iter := 1, env_step := some 5 } : LoopState).step =
      ({ step := 0, update_iter := 0, env_step := some 0 } : LoopState).step +
        (if (⟨"sac", false, true, true, 100, 10, 4, 4, 4⟩ : Config).is_mpi
          then mpi_sum 2 [3] else 2)
    ∧ ({ step := 5, update_iter := 1, env_step := some 5 } :
        LoopState).update_iter =
      ({ step := 0, update_iter := 0, env_step := some 0 } :
        LoopState).update_iter + 1 :=
  train_iter_step_accounting ⟨"sac", false, true, true, 100, 10, 4, 4, 4⟩
    ⟨0, 0, some 0⟩ ⟨2, [3], some 5⟩ ⟨5, 1, some 5⟩ ⟨true, true, false, none⟩
    (by simp [train_iter, step_per_batch, mpi_sum, chef_effects])

/-- C7: in a completed Trainer.train iteration, evaluation runs exactly
when the worker is the chef and the incremented update_iter is a multiple
of config.evaluate_interval; a checkpoint is saved, with exactly the
incremented step, update_iter and env_step as arguments, exactly when the
worker is the chef and update_iter is a multiple of config.ckpt_interval;
a worker that is not the chef never evaluates and never saves. -/
theorem chef_evaluate_ckpt_gating (cfg : Config) (s : LoopState)
    (b : RolloutBatch) (s1 : LoopState) (fx : IterEffects)
    (h : train_iter cfg s b = some (s1, fx))
    (_he : 0 < cfg.evaluate_interval) (_hc : 0 < cfg.ckpt_interval) :
    (fx.evaluated = true ↔
      (cfg.is_chef = true ∧ cfg.evaluate_interval ∣ s1.update_iter))
    ∧ (fx.saved_ckpt = some (s1.step, s1.update_iter, s1.env_step) ↔
      (cfg.is_chef = true ∧ cfg.ckpt_interval ∣ s1.update_iter))
    ∧ (cfg.is_chef = false → fx.evaluated = false ∧ fx.saved_ckpt = none) := by
  have hfx : fx = chef_effects cfg s1 := by
    cases hb : b.env_step_info with
    | none =>
      simp [train_iter, hb] at h
      rcases h with ⟨h1, h2⟩
      rw [← h2, ← h1]
    | some d =>
      cases hs : s.env_step with
      | none => simp [train_iter, hb, hs] at h
      | some e0 =>
        simp [train_iter, hb, hs] at h
        rcases h with ⟨h1, h2⟩
        rw [← h2, ← h1]
  subst hfx
  cases hch : cfg.is_chef with
  | false => simp [chef_effects, hch]
  | true =>
    refine ⟨?_, ?_, by simp⟩
    · simp [chef_effects, hch, Nat.dvd_iff_mod_eq_zero]
    · by_cases hmod : s1.update_iter % cfg.ckpt_interval = 0
      · simp [chef_effects, hch, hmod, Nat.dvd_iff_mod_eq_zero]
      · simp [chef_effects, hch, hmod, Nat.dvd_iff_mod_eq_zero]

/-- C7 witness: a concrete chef iteration with both intervals 1, in which
update_iter becomes 1, evaluation runs and a checkpoint with arguments
(1, 1, 1) is saved. -/
theorem chef_evaluate_ckpt_gating_witness :
    ((⟨true, true, true, some (1, 1, some 1)⟩ : IterEffects).evaluated = true ↔
      ((⟨"sac", true, true, false, 100, 10, 1, 1, 1⟩ : Config).is_chef = true
        ∧ (⟨"sac", true, true, false, 100, 10, 1, 1, 1⟩ :
            Config).evaluate_interval ∣
          ({ step := 1, update_iter := 1, env_step := some 1 } :
            LoopState).update_iter))
    ∧ ((⟨true, true, true, some (1, 1, some 1)⟩ : IterEffects).saved_ckpt =
        some (({ step := 1, update_iter := 1, env_step := some 1 } :
            LoopState).step,
          ({ step := 1, update_iter := 1, env_step := some 1 } :
            LoopState).update_iter,
          ({ step := 1, update_iter := 1, env_step := some 1 } :
            LoopState).env_step) ↔
      ((⟨"sac", true, true, false, 100, 10, 1, 1, 1⟩ : Config).is_chef = true
        ∧ (⟨"sac", true, true, false, 100, 10, 1, 1, 1⟩ :
            Config).ckpt_interval ∣
          ({ step := 1, update_iter := 1, env_step := some 1 } :
            LoopState).update_iter))
    ∧ ((⟨"sac", true, true, false, 100, 10, 1, 1, 1⟩ : Config).is_chef = false →
      (⟨true, true, true, some (1, 1, some 1)⟩ : IterEffects).evaluated = false
      ∧ (⟨true, true, true, some (1, 1, some 1)⟩ :
          IterEffects).saved_ckpt = none) :=
  chef_evaluate_ckpt_gating ⟨"sac", true, true, false, 100, 10, 1, 1, 1⟩
    ⟨0, 0, some 0⟩ ⟨1, [], some 1⟩ ⟨1, 1, some 1⟩
    ⟨true, true, true, some (1, 1, some 1)⟩
    (by simp [train_iter, step_per_batch, chef_effects])
    (by decide) (by decide)

/-- Concrete configuration selecting the td3 algorithm. -/
def cfg_td3 : Config := ⟨"td3", true, true, false, 100, 10, 4, 4, 4⟩

/-- C6 counterexample: get_agent_by_name succeeds on td3, yet the generator
setup block of Trainer.train raises NotImplementedError for the td3
configuration instead of entering the rollout-collection loop, refuting the
claim at algo td3. -/
theorem td3_agent_ok_but_train_setup_raises :
    get_agent_by_name "td3" = Except.ok AgentClassName.TD3Agent
    ∧ train_setup cfg_td3 = Except.error PyError.notImplementedError := by
  constructor
  · simp [get_agent_by_name]
  · simp [train_setup, cfg_td3]

/-- C6 amended: get_agent_by_name succeeds exactly for sac and td3 and
raises NotImplementedError for every other algo, but Trainer.train sets up
its rollout generators and proceeds to the rollout-collection and
optimization loop only for sac; for every other algo, td3 included, train
raises NotImplementedError before entering the loop. -/
theorem agent_dispatch_and_train_setup (cfg : Config) (algo : String)
    (dir : LogDir) (ag : AgentState) (rb bs : Nat → RolloutBatch)
    (preFuel loopFuel : Nat) :
    ((∃ c, get_agent_by_name algo = Except.ok c) ↔
      (algo = "sac" ∨ algo = "td3"))
    ∧ ((∃ g, train_setup cfg = Except.ok g) ↔ cfg.algo = "sac")
    ∧ (cfg.algo ≠ "sac" →
      train_fn cfg dir ag rb bs preFuel loopFuel = none) := by
  refine ⟨?_, ?_, ?_⟩
  · by_cases h1 : algo = "sac"
    · simp [get_agent_by_name, h1]
    · by_cases h2 : algo = "td3" <;> simp [get_agent_by_name, h1, h2]
  · by_cases h1 : cfg.algo = "sac" <;> simp [train_setup, h1]
  · intro h1
    cases hl : load_ckpt cfg dir ag none with
    | none => simp [train_fn, hl]
    | some out => simp [train_fn, hl, train_setup, h1]

/-- C6 amended witness: instantiated at the td3 configuration, whose train
call returns no loop outcome. -/
theorem agent_dispatch_and_train_setup_witness :
    train_fn cfg_td3 ⟨[], []⟩ ⟨0, 0⟩ (fun _ => ⟨1, [], some 1⟩)
      (fun _ => ⟨1, [], some 1⟩) 1 1 = none :=
  (agent_dispatch_and_train_setup cfg_td3 "td3" ⟨[], []⟩ ⟨0, 0⟩
    (fun _ => ⟨1, [], some 1⟩) (fun _ => ⟨1, [], some 1⟩) 1 1).2.2
    (by simp [cfg_td3])

/-- The per-batch step increment dominates the local action count: under
mpi the reduction adds the contributions of the other workers on top of
the local one. -/
theorem ac_len_le_step_per_batch (cfg : Config) (b : RolloutBatch) :
    b.ac_len ≤ step_per_batch cfg b := by
  unfold step_per_batch mpi_sum
  split <;> omega

/-- A Trainer.train iteration completes whenever the incoming env-step
counter and the batch env-step info are present, and then advances the
global step by exactly step_per_batch while keeping the env-step counter
present. -/
theorem train_iter_progress (cfg : Config) (s : LoopState) (b : RolloutBatch)
    (hb : (b.env_step_info).isSome = true)
    (hs : (s.env_step).isSome = true) :
    ∃ s1 fx, train_iter cfg s b = some (s1, fx)
      ∧ s1.step = s.step + step_per_batch cfg b
      ∧ (s1.env_step).isSome = true := by
  rcases hb1 : b.env_step_info with _ | d
  · rw [hb1] at hb
    simp at hb
  · rcases hs1 : s.env_step with _ | e0
    · rw [hs1] at hs
      simp at hs
    · refine ⟨LoopState.mk (s.step + step_per_batch cfg b)
        (s.update_iter + 1) (some (e0 + d)),
        chef_effects cfg (LoopState.mk (s.step + step_per_batch cfg b)
          (s.update_iter + 1) (some (e0 + d))),
        ?_, rfl, rfl⟩
      simp [train_iter, hb1, hs1]

/-- C3: under the stated precondition that every collected rollout batch
contributes at least one action step (and with the runner reporting
env_step so that no iteration raises), the Trainer.train while loop, given
fuel covering the remaining distance to config.max_global_step, completes
as a finite repetition of store_episode followed by exactly one agent.train
call per iteration, and stops in a state whose global step has reached or
exceeded config.max_global_step. -/
theorem train_loop_terminates (cfg : Config) (batches : Nat → RolloutBatch)
    (fuel i : Nat) (s : LoopState)
    (hac : ∀ j, 1 ≤ (batches j).ac_len)
    (henv : ∀ j, ((batches j).env_step_info).isSome = true)
    (hs : (s.env_step).isSome = true)
    (hfuel : cfg.max_global_step ≤ s.step + fuel) :
    ∃ sf tr k, train_loop cfg batches fuel i s = some (sf, tr)
      ∧ cfg.max_global_step ≤ sf.step
      ∧ tr = (List.replicate k
          [TrainEvent.storeEpisode, TrainEvent.agentTrain]).flatten := by
  induction fuel generalizing i s with
  | zero =>
    have hnlt : ¬ s.step < cfg.max_global_step := by omega
    exact ⟨s, [], 0, by unfold train_loop; simp [hnlt], by omega, by simp⟩
  | succ f ih =>
    by_cases hlt : s.step < cfg.max_global_step
    · obtain ⟨s1, fx, hit, hstep, hsome⟩ :=
        train_iter_progress cfg s (batches i) (henv i) hs
      have hspb : 1 ≤ step_per_batch cfg (batches i) :=
        le_trans (hac i) (ac_len_le_step_per_batch cfg (batches i))
      obtain ⟨sf, tr, k, hloop, hge, htr⟩ := ih (i + 1) s1 hsome (by omega)
      refine ⟨sf, TrainEvent.storeEpisode :: TrainEvent.agentTrain :: tr,
        k + 1, ?_, hge, by simp [htr, List.replicate_succ]⟩
      unfold train_loop
      simp [hlt, hit, hloop]
    · exact ⟨s, [], 0, by unfold train_loop; simp [hlt], by omega, by simp⟩

/-- C3 witness: with max_global_step 3 and every batch contributing one
step, three units of fuel let the loop run to completion. -/
theorem train_loop_terminates_witness :
    ∃ sf tr k,
      train_loop ⟨"sac", true, true, false, 3, 0, 5, 5, 5⟩
        (fun _ => ⟨1, [], some 1⟩) 3 0 ⟨0, 0, some 0⟩ = some (sf, tr)
      ∧ (⟨"sac", true, true, false, 3, 0, 5, 5, 5⟩ : Config).max_global_step
          ≤ sf.step
      ∧ tr = (List.replicate k
          [TrainEvent.storeEpisode, TrainEvent.agentTrain]).flatten :=
  train_loop_terminates ⟨"sac", true, true, false, 3, 0, 5, 5, 5⟩
    (fun _ => ⟨1, [], some 1⟩) 3 0 ⟨0, 0, some 0⟩
    (fun _ => Nat.le_refl 1) (fun _ => rfl) rfl (by decide)

/-- The prefill loop, given fuel covering config.start_steps, completes
with an accumulated count that reaches or exceeds config.start_steps, as
long as every random-exploration batch contributes at least one step. -/
theorem prefill_loop_reaches (cfg : Config) (batches : Nat → RolloutBatch)
    (fuel i init : Nat) (hac : ∀ j, 1 ≤ (batches j).ac_len)
    (hfuel : cfg.start_steps ≤ init + fuel) :
    ∃ fin k, prefill_loop cfg batches fuel i init = some (fin, k)
      ∧ cfg.start_steps ≤ fin := by
  induction fuel generalizing i init with
  | zero =>
    have hnlt : ¬ init < cfg.start_steps := by omega
    exact ⟨init, 0, by unfold prefill_loop; simp [hnlt], by omega⟩
  | succ f ih =>
    by_cases hlt : init < cfg.start_steps
    · have hspb : 1 ≤ step_per_batch cfg (batches i) :=
        le_trans (hac i) (ac_len_le_step_per_batch cfg (batches i))
      obtain ⟨fin, k, hl, hge⟩ :=
        ih (i + 1) (init + step_per_batch cfg (batches i)) (by omega)
      exact ⟨fin, k + 1, by unfold prefill_loop; simp [hlt, hl], hge⟩
    · exact ⟨init, 0, by unfold prefill_loop; simp [hlt], by omega⟩

/-- C10: with no checkpoint in the log directory, _load_ckpt returns
(0, 0, 0) and leaves the agent untouched; in that fresh-start case, a sac
Trainer.train run first fills the replay buffer with random-exploration
episodes until the accumulated step count is at least config.start_steps,
and all of those store_episode calls precede every agent optimization
event of the run. -/
theorem fresh_start_prefill (cfg : Config) (replays : List (Nat × Nat))
    (ag : AgentState) (rb bs : Nat → RolloutBatch) (preFuel loopFuel : Nat)
    (hsac : cfg.algo = "sac")
    (hac : ∀ j, 1 ≤ (rb j).ac_len)
    (hfuel : cfg.start_steps ≤ preFuel) :
    load_ckpt cfg ⟨[], replays⟩ ag none = some (ag, 0, 0, some 0)
    ∧ ∃ fin k, prefill_loop cfg rb preFuel 0 0 = some (fin, k)
      ∧ cfg.start_steps ≤ fin
      ∧ TrainEvent.agentTrain ∉ List.replicate k TrainEvent.storeEpisode
      ∧ ∀ tr sf, train_fn cfg ⟨[], replays⟩ ag rb bs preFuel loopFuel =
          some (tr, sf) →
        ∃ tr2, tr = List.replicate k TrainEvent.storeEpisode ++ tr2 := by
  have hload : load_ckpt cfg ⟨[], replays⟩ ag none =
      some (ag, 0, 0, some 0) := by
    simp [load_ckpt, get_ckpt_path]
  obtain ⟨fin, k, hpre, hge⟩ :=
    prefill_loop_reaches cfg rb preFuel 0 0 hac (by omega)
  refine ⟨hload, fin, k, hpre, hge, ?_, ?_⟩
  · intro hmem
    have := List.eq_of_mem_replicate hmem
    simp at this
  · intro tr sf htr
    rw [train_fn, hload] at htr
    simp only [train_setup, hsac, reduceIte, hpre] at htr
    cases hloop : train_loop cfg bs loopFuel 0
        { step := 0, update_iter := 0, env_step := some 0 } with
    | none =>
      rw [hloop] at htr
      simp at htr
    | some out =>
      rw [hloop] at htr
      obtain ⟨sf2, tr2⟩ := out
      simp at htr
      exact ⟨tr2, htr.1.symm⟩

/-- C10 witness: a fresh sac run with start_steps 2 and single-step random
batches prefills in two stored episodes. -/
theorem fresh_start_prefill_witness :
    load_ckpt ⟨"sac", true, true, false, 1, 2, 5, 5, 5⟩ ⟨[], []⟩ ⟨0, 0⟩ none =
      some (⟨0, 0⟩, 0, 0, some 0)
    ∧ ∃ fin k, prefill_loop ⟨"sac", true, true, false, 1, 2, 5, 5, 5⟩
        (fun _ => ⟨1, [], some 1⟩) 2 0 0 = some (fin, k)
      ∧ (⟨"sac", true, true, false, 1, 2, 5, 5, 5⟩ : Config).start_steps ≤ fin
      ∧ TrainEvent.agentTrain ∉ List.replicate k TrainEvent.storeEpisode
      ∧ ∀ tr sf, train_fn ⟨"sac", true, true, false, 1, 2, 5, 5, 5⟩ ⟨[], []⟩
          ⟨0, 0⟩ (fun _ => ⟨1, [], some 1⟩) (fun _ => ⟨1, [], some 1⟩) 2 1 =
          some (tr, sf) →
        ∃ tr2, tr = List.replicate k TrainEvent.storeEpisode ++ tr2 :=
  fresh_start_prefill ⟨"sac", true, true, false, 1, 2, 5, 5, 5⟩ [] ⟨0, 0⟩
    (fun _ => ⟨1, [], some 1⟩) (fun _ => ⟨1, [], some 1⟩) 2 1 rfl
    (fun _ => Nat.le_refl 1) (by decide)

/-- A compute_reward error is always the UnboundLocalError of the
non-dense branch. -/
theorem compute_reward_error_eq (npNorm : Vec3 → ℚ) (env : PickPlaceEnv)
    (a : List ℚ) (e : PyError)
    (h : compute_reward npNorm env a = Except.error e) :
    e = PyError.unboundLocalError := by
  unfold compute_reward at h
  by_cases hd : env.reward_type = "dense"
  · rw [if_pos hd] at h
    exact absurd h (by simp)
  · rw [if_neg hd] at h
    injection h with h1
    exact h1.symm

/-- A step whose action length matches dof never raises AssertionError:
it either returns the tuple or propagates the reward error. -/
theorem sawyer_step_no_assert (npNorm : Vec3 → ℚ)
    (doSim : SimData → List ℚ → SimData) (gfa : ℚ → List ℚ)
    (baseObs : SimData → List (String × ObsVal)) (env : PickPlaceEnv)
    (action : List ℚ) (is_planner : Bool)
    (hlen : action.length = env.dof) :
    sawyer_step npNorm doSim gfa baseObs env action is_planner ≠
      Except.error PyError.assertionError := by
  rw [sawyer_step, if_pos hlen]
  dsimp only
  split
  · next e heq =>
    have he := compute_reward_error_eq npNorm _ action e heq
    subst he
    simp
  · next reward info heq =>
    simp

/-- C9 amended: _step raises AssertionError exactly when the action length
differs from the environment dof; when the length matches and the
configured reward is dense (with the sparse reward configured,
compute_reward raises UnboundLocalError instead of returning), the step
returns the tuple of the observation of the post-step state, the reward,
the unchanged terminal flag and the reward info, after advancing the
simulator int(frame_dt/dt) inner-loop passes and setting _prev_state to
the desired state: the previous state (the qpos snapshot, or the stored
previous state on planner calls) plus the rescaled arm action, clipped to
the ac_scale interval for planner actions and multiplied by ac_scale
otherwise. -/
theorem sawyer_step_assertion_and_result (npNorm : Vec3 → ℚ)
    (doSim : SimData → List ℚ → SimData) (gfa : ℚ → List ℚ)
    (baseObs : SimData → List (String × ObsVal)) (env : PickPlaceEnv)
    (action : List ℚ) (is_planner : Bool) :
    ((sawyer_step npNorm doSim gfa baseObs env action is_planner =
        Except.error PyError.assertionError) ↔ action.length ≠ env.dof)
    ∧ (action.length = env.dof → env.reward_type = "dense" →
      ∃ reward info,
        sawyer_step npNorm doSim gfa baseObs env action is_planner =
          Except.ok (get_obs baseObs
              (step_post_env doSim gfa env action is_planner),
            reward, env.terminal, info,
            step_post_env doSim gfa env action is_planner)
        ∧ (step_post_env doSim gfa env action is_planner).prev_state =
          some (List.zipWith (fun a b => a + b)
            (if is_planner = false ∨ env.prev_state = none
              then env.sim.qpos_ref else env.prev_state.getD [])
            (if is_planner then
              (action.take env.robot_dof).map
                (fun a => np_clip a (-env.ac_scale) env.ac_scale)
              else (action.take env.robot_dof).map
                (fun a => a * env.ac_scale)))
        ∧ (step_post_env doSim gfa env action is_planner).sim =
          iterate_sim (fun sd => doSim sd
              (step_desired_state env action is_planner ++
                gfa (action.getLast?.getD 0)))
            ((py_int (env.frame_dt / env.dt)).toNat) env.sim
        ∧ (step_post_env doSim gfa env action is_planner).terminal =
          env.terminal) := by
  constructor
  · constructor
    · intro h
      by_contra hlen
      exact sawyer_step_no_assert npNorm doSim gfa baseObs env action
        is_planner hlen h
    · intro hne
      rw [sawyer_step, if_neg hne]
  · intro hlen hdense
    have hrt : (step_post_env doSim gfa env action is_planner).reward_type =
        "dense" := hdense
    obtain ⟨rr, hcr⟩ : ∃ rr,
        compute_reward npNorm (step_post_env doSim gfa env action is_planner)
          action = Except.ok (0 + rr, [("reward_reach", rr)]) := by
      unfold compute_reward
      rw [if_pos hrt]
      exact ⟨_, rfl⟩
    refine ⟨0 + rr, [("reward_reach", rr)], ?_, ?_, rfl, rfl⟩
    · rw [sawyer_step, if_pos hlen]
      dsimp only
      rw [hcr]
      rfl
    · rfl

/-- C9 counterexample: with the sparse reward configured and an action of
valid length (equal to dof), _step does not return the observation tuple:
the reward computation raises UnboundLocalError, refuting the claim as
stated for the sparse reward configuration. -/
theorem sparse_step_raises_despite_valid_action :
    ([1, 1, 1, 1] : List ℚ).length = sparseEnv.dof
    ∧ sawyer_step absNorm (fun sd _ => sd) (fun g => [g]) (fun _ => [])
        sparseEnv [1, 1, 1, 1] false =
      Except.error PyError.unboundLocalError := by
  have h1 : compute_reward absNorm
      (step_post_env (fun sd _ => sd) (fun g => [g]) sparseEnv [1, 1, 1, 1]
        false) [1, 1, 1, 1] = Except.error PyError.unboundLocalError := by
    unfold compute_reward
    rw [if_neg (by simp [step_post_env, sparseEnv, denseEnv])]
  refine ⟨rfl, ?_⟩
  rw [sawyer_step, if_pos (by rfl)]
  dsimp only
  rw [h1]

/-- C9 witness: with the dense reward and an action of length dof, the
concrete step returns the observation tuple and the stated post state. -/
theorem sawyer_step_assertion_and_result_witness :
    ∃ reward info,
      sawyer_step absNorm (fun sd _ => sd) (fun g => [g]) (fun _ => [])
        denseEnv [1, 1, 1, 1] false =
        Except.ok (get_obs (fun _ => [])
            (step_post_env (fun sd _ => sd) (fun g => [g]) denseEnv
              [1, 1, 1, 1] false),
          reward, denseEnv.terminal, info,
          step_post_env (fun sd _ => sd) (fun g => [g]) denseEnv
            [1, 1, 1, 1] false)
      ∧ (step_post_env (fun sd _ => sd) (fun g => [g]) denseEnv [1, 1, 1, 1]
          false).prev_state =
        some (List.zipWith (fun a b => a + b)
          (if false = false ∨ denseEnv.prev_state = none
            then denseEnv.sim.qpos_ref else denseEnv.prev_state.getD [])
          (if false then
            (([1, 1, 1, 1] : List ℚ).take denseEnv.robot_dof).map
              (fun a => np_clip a (-denseEnv.ac_scale) denseEnv.ac_scale)
            else (([1, 1, 1, 1] : List ℚ).take denseEnv.robot_dof).map
              (fun a => a * denseEnv.ac_scale)))
      ∧ (step_post_env (fun sd _ => sd) (fun g => [g]) denseEnv [1, 1, 1, 1]
          false).sim =
        iterate_sim (fun sd => (fun sd _ => sd) sd
            (step_desired_state denseEnv [1, 1, 1, 1] false ++
              (fun g => [g]) (([1, 1, 1, 1] : List ℚ).getLast?.getD 0)))
          ((py_int (denseEnv.frame_dt / denseEnv.dt)).toNat) denseEnv.sim
      ∧ (step_post_env (fun sd _ => sd) (fun g => [g]) denseEnv [1, 1, 1, 1]
          false).terminal = denseEnv.terminal :=
  (sawyer_step_assertion_and_result absNorm (fun sd _ => sd) (fun g => [g])
    (fun _ => []) denseEnv [1, 1, 1, 1] false).2 rfl rfl
